import Mathlib

/-!
Verification development for the ABCD Document Analyzer backend.

We give a shallow embedding of the two core orchestration engines
(`core/evaluator.py` and `core/chatbot.py`), of the response parser
(`ProposalEvaluator.parse_analysis_response`) and of the evaluator HTTP
route validation (`api/routes/evaluator.py`), and prove the spec's
testable properties about them.

Modelling conventions:
* Python `str` values are Lean `String`s; character-level processing is
  done on `List Char` (`String.data`).
* Python `float` scores are modelled as `ℚ` (the claims under study are
  about which scores enter the arithmetic mean, not about rounding).
* Fallible external calls (LLM completions, Pinecone queries, PDF
  extraction) are modelled by oracle fields of an environment structure;
  each oracle is a function of exactly the data the source passes into
  the call and returns `Except String α` (`.error` = the Python call
  raised; a timeout of a parallel branch is one such error value).
* Database writes are modelled as an event trace returned next to the
  result, so that "nothing was persisted" is expressible.
* Regex semantics of the parser (leftmost match, lazy capture up to the
  next `**` or end-of-string, `$` also matching before a final newline,
  ASCII case-insensitivity) are reproduced by explicit scanning
  functions.
-/

namespace DocAnalyzer

/-- Python whitespace characters, as stripped by `str.strip()` and
matched by the regex class `\s` (ASCII fragment). -/
def isPySpace (c : Char) : Bool :=
  c = ' ' || c = '\t' || c = '\n' || c = '\r' || c = '\x0b' || c = '\x0c'

/-- Drop trailing characters satisfying `p`. -/
def dropTrailing (p : Char → Bool) (l : List Char) : List Char :=
  (l.reverse.dropWhile p).reverse

/-- Python `str.strip()` on a character list. -/
def pyStripWs (l : List Char) : List Char :=
  dropTrailing isPySpace (l.dropWhile isPySpace)

/-- Python `str.strip(chars)`: strip leading and trailing characters
belonging to the given set. -/
def pyStripSet (cs : List Char) (l : List Char) : List Char :=
  dropTrailing (fun c => cs.contains c) (l.dropWhile (fun c => cs.contains c))

/-- Python `str.split(sep=None... actually '\n')`: split on newline,
keeping empty segments (so the empty list of chars yields one empty
segment, as in Python). -/
def splitNl : List Char → List (List Char)
  | [] => [[]]
  | '\n' :: rest => [] :: splitNl rest
  | c :: rest =>
    match splitNl rest with
    | [] => [[c]]
    | l :: ls => (c :: l) :: ls

/-- Case-insensitive match of a (pre-lowercased) pattern at the head of
`s`, modelling `re.IGNORECASE` on ASCII letters. -/
def matchCIHere (pat s : List Char) : Bool :=
  pat.isPrefixOf ((s.take pat.length).map Char.toLower)

/-- Scan for the leftmost case-insensitive occurrence of `pat` and
return the suffix that follows the matched text (the regex engine's
position after consuming the literal heading). -/
def findCIAfter (pat : List Char) : List Char → Option (List Char)
  | [] => none
  | s@(_ :: rest) =>
    if matchCIHere pat s then some (s.drop pat.length)
    else findCIAfter pat rest

/-- The lazy capture `(.*?)(?:\*\*|$)` (with `re.DOTALL`): the shortest
prefix of the remaining text ending at a `**`, at the position just
before a final newline (where Python `$` also matches), or at the end
of the string. -/
def captureLazy : List Char → List Char
  | [] => []
  | ['\n'] => []
  | '*' :: '*' :: _ => []
  | c :: rest => c :: captureLazy rest

/-- The lazy capture `(.*?)$` (with `re.DOTALL`): everything up to the
first position where `$` matches, i.e. all of the text except a final
newline. -/
def captureToEnd (l : List Char) : List Char :=
  if l.getLast? = some '\n' then l.dropLast else l

/-- Numeric value of a digit string. -/
def digitsVal (ds : List Char) : Nat :=
  ds.foldl (fun n c => 10 * n + (c.toNat - '0'.toNat)) 0

/-- Match `\s*\[?(\d+(?:\.\d+)?)` against the text following a
`**SCORE**:` heading, returning the captured number as a rational. -/
def scoreAfter (s : List Char) : Option ℚ :=
  let s1 := s.dropWhile isPySpace
  let s2 := match s1 with
    | '[' :: r => r
    | _ => s1
  let ds := s2.takeWhile Char.isDigit
  let rest := s2.dropWhile Char.isDigit
  if ds.isEmpty then none
  else
    let ip : ℚ := (digitsVal ds : ℚ)
    match rest with
    | '.' :: r2 =>
      let fs := r2.takeWhile Char.isDigit
      if fs.isEmpty then some ip
      else some (ip + (digitsVal fs : ℚ) / ((10 : ℚ) ^ fs.length))
    | _ => some ip

/-- `re.search(r'\*\*SCORE\*\*:\s*\[?(\d+(?:\.\d+)?)', response, re.IGNORECASE)`:
scan left to right; at each position where the heading matches, try to
complete the numeric part, otherwise keep scanning. -/
def searchScore : List Char → Option ℚ
  | [] => none
  | s@(_ :: rest) =>
    if matchCIHere "**score**:".data s then
      match scoreAfter (s.drop 10) with
      | some q => some q
      | none => searchScore rest
    else searchScore rest

/-- Scan for `\*\*(GAPS|CRITICAL GAPS|MINOR GAPS)\*\*:` (case-insensitive)
and return the text following the matched heading. At any one position at
most one alternative can match, so alternation order is immaterial. -/
def findGapsAfter : List Char → Option (List Char)
  | [] => none
  | s@(_ :: rest) =>
    if matchCIHere "**gaps**:".data s then some (s.drop 9)
    else if matchCIHere "**critical gaps**:".data s then some (s.drop 18)
    else if matchCIHere "**minor gaps**:".data s then some (s.drop 15)
    else findGapsAfter rest

/-- The bullet-list extraction applied to a captured section body:
`section.strip().split('\n')`, keep lines whose stripped form starts
with `-`, store `line.strip('- ').strip()`. -/
def bulletsOf (captured : List Char) : List String :=
  ((splitNl (pyStripWs captured)).filterMap fun line =>
    if ['-'].isPrefixOf (pyStripWs line) then
      some (String.mk (pyStripWs (pyStripSet ['-', ' '] line)))
    else none)

/-- Parsed analysis record; doubles as the `EvaluationSection` response
schema (same fields). -/
structure AnalysisRecord where
  section_type : String
  title : String
  content : String
  score : Option ℚ
  gaps : List String
  strengths : List String
  recommendations : List String
deriving Repr, DecidableEq, Inhabited

/-- Title lookup `titles.get(section_type, 'Analysis')`. -/
def sectionTitle (sectionType : String) : String :=
  if sectionType = "P_Internal" then "Internal Consistency Analysis"
  else if sectionType = "P_External" then "ToR Alignment Analysis"
  else if sectionType = "P_Delta" then "Gap Analysis"
  else "Analysis"

/-- The `try` body of `ProposalEvaluator.parse_analysis_response`. -/
def parse_analysis_body (response sectionType : String) : AnalysisRecord :=
  let r := response.data
  let score := searchScore r
  let strengths := match findCIAfter "**strengths**:".data r with
    | some s => bulletsOf (captureLazy s)
    | none => []
  let gaps := match findGapsAfter r with
    | some s => bulletsOf (captureLazy s)
    | none => []
  let recommendations := match findCIAfter "**recommendations**:".data r with
    | some s => bulletsOf (captureLazy s)
    | none => []
  let content := match findCIAfter "**detailed analysis**:".data r with
    | some s => String.mk (pyStripWs (captureToEnd s))
    | none => response
  { section_type := sectionType
    title := sectionTitle sectionType
    content := content
    score := score
    gaps := gaps
    strengths := strengths
    recommendations := recommendations }

/-- The minimal record returned by the `except` branch of
`parse_analysis_response`. -/
def minimalRecord (response sectionType : String) : AnalysisRecord :=
  { section_type := sectionType
    title := sectionType ++ " Analysis"
    content := response
    score := none
    gaps := []
    strengths := []
    recommendations := [] }

/-- `ProposalEvaluator.parse_analysis_response`: the `try`/`except`
structure is made explicit by a parameter recording whether the Python
runtime raised inside the body (in this model the body itself is a total
function, so `raised = none` is the run observed in practice). -/
def parse_analysis_response (raised : Option String) (response sectionType : String) :
    AnalysisRecord :=
  match raised with
  | some _ => minimalRecord response sectionType
  | none => parse_analysis_body response sectionType

/-! ## Evaluation orchestrator (`core/evaluator.py`) -/

/-- Python truthiness of an optional string (`if text_input:`). -/
def truthyStr : Option String → Bool
  | some s => s != ""
  | none => false

/-- Python truthiness of optional bytes (`elif file_data:`). -/
def truthyBytes : Option (List Nat) → Bool
  | some b => !b.isEmpty
  | none => false

/-- Python `a or b` for an optional string (`request.session_id or str(uuid.uuid4())`). -/
def pyOrStr (a : Option String) (b : String) : String :=
  match a with
  | some s => if s = "" then b else s
  | none => b

/-- `EvaluatorRequest` (pydantic schema, the fields the engine reads). -/
structure EvaluatorRequest where
  user_id : String
  user_name : Option String
  session_id : Option String
  organization_id : Option String
  org_guideline_id : Option String
  proposal_text_input : Option String
  proposal_file_data : Option (List Nat)
  tor_text_input : Option String
  tor_file_data : Option (List Nat)
deriving Repr, DecidableEq

/-- `EvaluatorResponse` (pydantic schema; `created_at` wall-clock field
omitted, scores as rationals). -/
structure EvaluatorResponse where
  session_id : String
  user_id : String
  internal_analysis : AnalysisRecord
  external_analysis : AnalysisRecord
  delta_analysis : AnalysisRecord
  overall_score : Option ℚ
  summary : Option String
  recommendation : Option String
  processing_time_seconds : ℚ
deriving Repr, DecidableEq, Inhabited

/-- Events of an evaluation run: database writes and LLM analysis calls,
in program order.  `createSession` and `saveResults` model
`EvaluatorDB.create_session` / `EvaluatorDB.save_evaluation_results`;
`analysisCall` records the arguments `run_analysis` passes into the
Completion Provider for one analysis. -/
inductive EvalEv where
  | createSession (sessionId proposalTextStored torTextStored : String)
  | analysisCall (analysisType proposalSummary torSummary guidelines
      internalInsights externalInsights : String)
  | saveResults (sessionId : String) (internal external delta : AnalysisRecord)
      (overallScore : Option ℚ)
deriving Repr, DecidableEq

/-- Environment of oracle results for one evaluation request.  Each LLM
oracle stands for `llm_service.generate_completion` applied to the prompt
template instantiated with exactly the listed arguments; `.error` means
the call raised (timeouts of the parallel branches included).  `parseRaised`
is the runtime-exception injection point of `parse_analysis_response`. -/
structure EvalEnv where
  newUuid : String
  extractPdf : List Nat → Except String String
  orgGuidelines : String → Option String → List String
  proposalSummaryLLM : String → Except String String
  torSummaryLLM : String → Except String String
  analysisLLM : String → String → String → String → String → String →
    Except String String
  parseRaised : Option String
  processingTime : ℚ

/-- `ProposalEvaluator.process_proposal`. -/
def process_proposal (env : EvalEnv) (textInput : Option String)
    (fileData : Option (List Nat)) : Except String (String × Option String) :=
  if truthyStr textInput then .ok (textInput.getD "", none)
  else if truthyBytes fileData then
    match env.extractPdf (fileData.getD []) with
    | .ok t => .ok (t, none)
    | .error e => .error e
  else .ok ("", none)

/-- `ProposalEvaluator.process_tor` (same logic as `process_proposal`). -/
def process_tor (env : EvalEnv) (textInput : Option String)
    (fileData : Option (List Nat)) : Except String (String × Option String) :=
  process_proposal env textInput fileData

/-- `ProposalEvaluator.summarize_proposal`: on Completion Provider
failure, fall back to the first 2000 characters of the raw text. -/
def summarize_proposal (env : EvalEnv) (proposalText : String) : String :=
  match env.proposalSummaryLLM proposalText with
  | .ok summary => summary
  | .error _ => proposalText.take 2000

/-- `ProposalEvaluator.summarize_tor`. -/
def summarize_tor (env : EvalEnv) (torText : String) : String :=
  match env.torSummaryLLM torText with
  | .ok summary => summary
  | .error _ => torText.take 2000

/-- `ProposalEvaluator.run_analysis`: one Completion Provider call plus
parsing (parsing itself never raises past its boundary). -/
def run_analysis (env : EvalEnv) (analysisType proposalSummary torSummary
    guidelines internalInsights externalInsights : String) :
    Except String AnalysisRecord :=
  match env.analysisLLM analysisType proposalSummary torSummary guidelines
      internalInsights externalInsights with
  | .ok response => .ok (parse_analysis_response env.parseRaised response analysisType)
  | .error e => .error e

/-- The pydantic bound `Field(None, ge=0, le=100)` on
`EvaluationSection.score` and `EvaluatorResponse.overall_score`
(`schemas/evaluator.py`): a missing score is allowed, a present one
must lie in [0, 100]. -/
def scoreInRange : Option ℚ → Bool
  | none => true
  | some s => decide (0 ≤ s) && decide (s ≤ 100)

/-- Guidelines text resolved in step 3 of `evaluate`
(`"\n\n".join(...)` over the guideline texts when an organization id is
supplied and the store returns a non-empty list). -/
def guidelinesOf (env : EvalEnv) (req : EvaluatorRequest) : String :=
  match req.organization_id with
  | none => ""
  | some oid =>
    if oid = "" then ""
    else
      let gl := env.orgGuidelines oid req.org_guideline_id
      if gl.isEmpty then "" else String.intercalate "\n\n" gl

/-- `ProposalEvaluator.evaluate`: the full pipeline, returning the event
trace next to the result.  The two parallel analyses are both issued
(both `analysisCall` events appear); `internal_future.result` is
consulted first, so an internal failure propagates even when the
external branch succeeded, and neither is persisted.  Results are saved
in step 7 before the response is built in step 8, where the pydantic
construction of `EvaluationSection`/`EvaluatorResponse` validates the
three section scores and the overall score against the [0, 100] bound
and raises when one is out of range — so such a run fails after
persisting and returns no result. -/
def evaluate (env : EvalEnv) (req : EvaluatorRequest) :
    List EvalEv × Except String EvaluatorResponse :=
  let session_id := pyOrStr req.session_id env.newUuid
  match process_proposal env req.proposal_text_input req.proposal_file_data with
  | .error e => ([], .error e)
  | .ok (proposal_text, _proposal_url) =>
  match process_tor env req.tor_text_input req.tor_file_data with
  | .error e => ([], .error e)
  | .ok (tor_text, _tor_url) =>
  let evCreate := EvalEv.createSession session_id (proposal_text.take 10000)
    (tor_text.take 10000)
  let guidelines := guidelinesOf env req
  let proposal_summary := summarize_proposal env proposal_text
  let tor_summary := summarize_tor env tor_text
  let evInt := EvalEv.analysisCall "P_Internal" proposal_summary tor_summary
    guidelines "" ""
  let evExt := EvalEv.analysisCall "P_External" proposal_summary tor_summary
    guidelines "" ""
  match run_analysis env "P_Internal" proposal_summary tor_summary guidelines "" "" with
  | .error e => ([evCreate, evInt, evExt], .error e)
  | .ok internal_result =>
  match run_analysis env "P_External" proposal_summary tor_summary guidelines "" "" with
  | .error e => ([evCreate, evInt, evExt], .error e)
  | .ok external_result =>
  let internal_insights := internal_result.content.take 500
  let external_insights := external_result.content.take 500
  let evDelta := EvalEv.analysisCall "P_Delta" proposal_summary tor_summary
    guidelines internal_insights external_insights
  match run_analysis env "P_Delta" proposal_summary tor_summary guidelines
      internal_insights external_insights with
  | .error e => ([evCreate, evInt, evExt, evDelta], .error e)
  | .ok delta_result =>
  let scores := [internal_result.score, external_result.score, delta_result.score]
  let valid_scores := scores.filterMap id
  let overall_score : Option ℚ :=
    if !valid_scores.isEmpty then
      some (valid_scores.sum / (valid_scores.length : ℚ))
    else none
  let evSave := EvalEv.saveResults session_id internal_result external_result
    delta_result overall_score
  if scoreInRange internal_result.score && scoreInRange external_result.score &&
      scoreInRange delta_result.score && scoreInRange overall_score then
    ([evCreate, evInt, evExt, evDelta, evSave],
     .ok { session_id := session_id
           user_id := req.user_id
           internal_analysis := internal_result
           external_analysis := external_result
           delta_analysis := delta_result
           overall_score := overall_score
           summary := none
           recommendation := none
           processing_time_seconds := env.processingTime })
  else
    ([evCreate, evInt, evExt, evDelta, evSave], .error "pydantic validation error")

/-! ## Chat orchestrator (`core/chatbot.py`) -/

/-- Substring test (Python `pat in s`). -/
def containsSub (pat : List Char) : List Char → Bool
  | [] => pat.isEmpty
  | s@(_ :: rest) => pat.isPrefixOf s || containsSub pat rest

/-- Suffix of a line after its first `:` (Python `line.split(':', 1)[1]`,
on lines known to contain a colon). -/
def afterColon (line : List Char) : List Char :=
  (line.dropWhile (fun c => c != ':')).drop 1

/-- One Pinecone match as read by `extract_context`: the optional
metadata/payload fields the code accesses with `.get`. -/
structure PineResult where
  metadata_pdf_name : Option String
  metadata_source : Option String
  metadata_text : Option String
  text : Option String
  score : Option ℚ
deriving Repr, DecidableEq

/-- `metadata.get('pdf_name', metadata.get('source', 'Unknown'))`. -/
def pdfNameOf (r : PineResult) : String :=
  r.metadata_pdf_name.getD (r.metadata_source.getD "Unknown")

/-- `metadata.get('text', result.get('text', ''))`. -/
def pdfTextOf (r : PineResult) : String :=
  r.metadata_text.getD (r.text.getD "")

/-- `result.get('score', 0.0)`. -/
def pdfScoreOf (r : PineResult) : ℚ :=
  r.score.getD 0

/-- `ContextInfo` chat schema. -/
structure ContextInfo where
  pdf_name : String
  pdf_context : String
  score : ℚ
deriving Repr, DecidableEq

/-- `SourceInfo` chat schema (the fields of the PDF-mapping records). -/
structure SourceInfo where
  sno : String
  title : String
  author_organization : String
  publication_year : String
  link : String
  pdf_title : String
deriving Repr, DecidableEq

/-- `ChatRequest` schema (the fields the engine reads; `model` is the
enum's string value). -/
structure ChatRequest where
  user_id : String
  user_name : Option String
  user_email : Option String
  session_id : Option String
  question : String
  model : String
  source : Option String
deriving Repr, DecidableEq

/-- `ChatResponse` schema. -/
structure ChatResponse where
  user_id : String
  session_id : String
  response : String
  response_id : String
  contextInfo : List ContextInfo
  sources : List SourceInfo
  within_knowledge_base : Bool
deriving Repr, DecidableEq

/-- Database writes of one chat turn (`ChatbotDB.create_session` and
`ChatbotDB.save_message`), in program order. -/
inductive ChatEv where
  | createSession (sessionId : String)
  | saveUserMessage (sessionId content : String)
  | saveAssistantMessage (sessionId content responseId : String)
      (contextInfo : List ContextInfo) (sources : List SourceInfo)
deriving Repr, DecidableEq

/-- Environment of oracle results for one chat turn.  `refineLLM` and
`genLLM` stand for `llm_service.generate_completion` on the refinement /
generation prompts built from the listed arguments; `pineconeQuery`
stands for `pinecone.query`; `conversations` for
`ChatbotDB.get_user_conversations`; `pdfLookup` for the PDF-mappings
table (`none` = unknown document name). -/
structure ChatEnv where
  newSessionUuid : String
  newResponseUuid : String
  conversations : String → String → String
  refineLLM : String → String → Except String String
  pineconeQuery : String → Nat → Except String (List PineResult)
  pdfLookup : String → Option SourceInfo
  genLLM : String → String → String → String → Except String String

/-- One iteration of the line loop of `query_refiner`: a
`REQUIRES_RETRIEVAL:` line overwrites the flag, a `REFINED_QUERY:` line
overwrites the refined query, any other line is ignored. -/
def refineLineStep (acc : Bool × String) (line : List Char) : Bool × String :=
  if "REQUIRES_RETRIEVAL:".data.isPrefixOf line then
    (String.mk ((pyStripWs (afterColon line)).map Char.toLower) = "true", acc.2)
  else if "REFINED_QUERY:".data.isPrefixOf line then
    (acc.1, String.mk (pyStripWs (afterColon line)))
  else acc

/-- `ChatbotEngine.query_refiner`: parse the two labelled lines out of
the completion; on a provider error return `(True, query)`.  The loop
starts from `(False, query)`. -/
def query_refiner (env : ChatEnv) (conversation query : String) : Bool × String :=
  match env.refineLLM conversation query with
  | .error _ => (true, query)
  | .ok response =>
    (splitNl (pyStripWs response.data)).foldl refineLineStep (false, query)

/-- `PDFMappings.get`: the stored mapping, or the default record with
only `pdf_title` populated. -/
def pdfMappingsGet (env : ChatEnv) (pdfName : String) : SourceInfo :=
  (env.pdfLookup pdfName).getD
    { sno := "", title := "", author_organization := "", publication_year := ""
      link := "", pdf_title := pdfName }

/-- `get_unique_sources` (`utils/pdf_mappings.py`): deduplicate by
`pdf_title`, dropping records with an empty title. -/
def get_unique_sources (seen : List String) : List SourceInfo → List SourceInfo
  | [] => []
  | s :: rest =>
    if s.pdf_title != "" && !seen.contains s.pdf_title then
      s :: get_unique_sources (s.pdf_title :: seen) rest
    else get_unique_sources seen rest

/-- The context record pushed by the deduplication loop. -/
def mkContextInfo (r : PineResult) : ContextInfo :=
  { pdf_name := pdfNameOf r, pdf_context := pdfTextOf r, score := pdfScoreOf r }

/-- The deduplication loop of `extract_context`: keep a result when its
document name is unseen and fewer than `top_k` entries have been kept
(`n` mirrors `len(unique_contexts)`, `seen` mirrors `seen_pdfs`). -/
def uniqueLoop (topK : Nat) : List PineResult → List String → Nat → List ContextInfo
  | [], _, _ => []
  | r :: rs, seen, n =>
    let name := pdfNameOf r
    if !seen.contains name && n < topK then
      mkContextInfo r :: uniqueLoop topK rs (name :: seen) (n + 1)
    else uniqueLoop topK rs seen n

/-- Result dictionary of `extract_context`. -/
structure ExtractResult where
  context_info : List ContextInfo
  sources_info : List SourceInfo
  all_context : String
deriving Repr, DecidableEq

/-- `ChatbotEngine.extract_context`: query Pinecone with
`top_k * multiplier` candidates, deduplicate by document name, resolve
and deduplicate source descriptors, join the kept chunks; any raised
error degrades to the empty result. -/
def extract_context (env : ChatEnv) (query : String) (topK multiplier : Nat) :
    ExtractResult :=
  match env.pineconeQuery query (topK * multiplier) with
  | .error _ => { context_info := [], sources_info := [], all_context := "" }
  | .ok results =>
    let unique := uniqueLoop topK results [] 0
    let parts := unique.map (·.pdf_context)
    let sources := get_unique_sources [] (unique.map fun c => pdfMappingsGet env c.pdf_name)
    { context_info := unique
      sources_info := sources
      all_context := String.intercalate "\n\n---\n\n" parts }

/-- Python `text.split('\n\n')` (two-character separator, left to
right, keeping empty segments). -/
def splitDD : List Char → List (List Char)
  | [] => [[]]
  | '\n' :: '\n' :: rest => [] :: splitDD rest
  | c :: rest =>
    match splitDD rest with
    | [] => [[c]]
    | l :: ls => (c :: l) :: ls

/-- Inner accumulation of `break_into_paragraphs` over the lines of one
over-long paragraph: `(emitted paragraphs, current)`. -/
def longParaStep (maxLength : Nat) (acc : List (List Char) × List Char)
    (line : List Char) : List (List Char) × List Char :=
  let line := pyStripWs line
  if line.isEmpty then acc
  else if acc.2.length + line.length + 1 > maxLength then
    (if acc.2.isEmpty then acc.1 else acc.1 ++ [acc.2], line)
  else (acc.1, if acc.2.isEmpty then line else acc.2 ++ '\n' :: line)

/-- Handling of one paragraph by `break_into_paragraphs`. -/
def breakPara (maxLength : Nat) (acc : List (List Char)) (para : List Char) :
    List (List Char) :=
  let para := pyStripWs para
  if para.isEmpty then acc
  else if para.length > maxLength then
    let r := (splitNl para).foldl (longParaStep maxLength) ([], [])
    acc ++ r.1 ++ (if r.2.isEmpty then [] else [r.2])
  else acc ++ [para]

/-- `break_into_paragraphs` (`utils/text_processing.py`). -/
def break_into_paragraphs (text : String) (maxLength : Nat) : String :=
  if text = "" then ""
  else
    String.intercalate "\n\n"
      (((splitDD text.data).foldl (breakPara maxLength) []).map String.mk)

/-- The fixed case-insensitive marker phrases whose presence flips
`within_knowledge_base` to false. -/
def knowledgeGapPhrases : List String :=
  ["don" ++ String.singleton (Char.ofNat 39) ++ "t have that information",
   "not in my knowledge base",
   "cannot find",
   "no relevant information"]

/-- `ChatbotEngine.generate_response`: returns the (possibly
WhatsApp-formatted) answer and the `within_knowledge_base` flag; a
provider error degrades to a fixed apology with the flag false. -/
def generate_response (env : ChatEnv) (question conversation context model : String)
    (source : Option String) : String × Bool :=
  match env.genLLM question conversation context model with
  | .error _ =>
    ("I apologize, but I encountered an error generating a response. Please try again.",
     false)
  | .ok response =>
    let within0 := context != ""
    let lowerResponse := response.data.map Char.toLower
    let within :=
      if knowledgeGapPhrases.any (fun p => containsSub p.data lowerResponse) then false
      else within0
    let response2 :=
      if source = some "WA" then break_into_paragraphs response 1000 else response
    (response2, within)

/-- `ChatbotEngine.chat`: the full per-turn pipeline, returning the
database-write trace next to the response. -/
def chat (env : ChatEnv) (req : ChatRequest) : List ChatEv × ChatResponse :=
  let session_id := pyOrStr req.session_id env.newSessionUuid
  let response_id := env.newResponseUuid
  let evCreate := ChatEv.createSession session_id
  let conversation_string :=
    if session_id != "" then env.conversations req.user_id session_id else ""
  let evUser := ChatEv.saveUserMessage session_id req.question
  let refined := query_refiner env conversation_string req.question
  let contextData :=
    if refined.1 then extract_context env refined.2 4 2
    else { context_info := [], sources_info := [], all_context := "" }
  let generated := generate_response env req.question conversation_string
    contextData.all_context req.model req.source
  let kept :=
    if generated.2 then (contextData.context_info, contextData.sources_info)
    else ([], [])
  let evAssistant := ChatEv.saveAssistantMessage session_id generated.1 response_id
    kept.1 kept.2
  ([evCreate, evUser, evAssistant],
   { user_id := req.user_id
     session_id := session_id
     response := generated.1
     response_id := response_id
     contextInfo := kept.1
     sources := kept.2
     within_knowledge_base := generated.2 })

/-- Errors surfaced by the `/evaluate` route: a 400 validation failure
or a 500 wrapping of an engine exception. -/
inductive RouteError where
  | badRequest (detail : String)
  | internalError (detail : String)
deriving Repr, DecidableEq

/-- Route handler `evaluate_proposal` (`api/routes/evaluator.py`): the
two input-validation checks run before the engine is invoked; an
`UploadFile` argument is truthy whenever present. -/
def evaluate_proposal_route (env : EvalEnv) (user_id : String)
    (user_name session_id organization_id org_guideline_id : Option String)
    (proposal_text_input : Option String) (proposal_pdf_file : Option (List Nat))
    (tor_text_input : Option String) (tor_pdf_file : Option (List Nat)) :
    List EvalEv × Except RouteError EvaluatorResponse :=
  if !truthyStr proposal_text_input && !proposal_pdf_file.isSome then
    ([], .error (.badRequest "Either proposal_text_input or proposal_pdf_file must be provided"))
  else if !truthyStr tor_text_input && !tor_pdf_file.isSome then
    ([], .error (.badRequest "Either tor_text_input or tor_pdf_file must be provided"))
  else
    let req : EvaluatorRequest :=
      { user_id := user_id
        user_name := user_name
        session_id := session_id
        organization_id := organization_id
        org_guideline_id := org_guideline_id
        proposal_text_input := proposal_text_input
        proposal_file_data := proposal_pdf_file
        tor_text_input := tor_text_input
        tor_file_data := tor_pdf_file }
    match evaluate env req with
    | (ops, .ok r) => (ops, .ok r)
    | (ops, .error e) => (ops, .error (.internalError e))

/-! ## Spec-side reference definitions (written from the spec's words,
to be compared with the source-derived definitions above) -/

/-- The spec's overall-score rule: the arithmetic mean of whichever of
the three section scores are non-null, or null if all three are null. -/
def specOverallScore (a b c : Option ℚ) : Option ℚ :=
  let present := [a, b, c].filterMap id
  if present.isEmpty then none
  else some (present.sum / (present.length : ℚ))

/-- The spec's deduplication rule: keep, in order, the first
(highest-ranked) result for each source-document name. -/
def specDedupFirst (seen : List String) : List PineResult → List PineResult
  | [] => []
  | r :: rs =>
    if seen.contains (pdfNameOf r) then specDedupFirst seen rs
    else r :: specDedupFirst (pdfNameOf r :: seen) rs

/-- The keep-condition of claim C10: the whitespace-stripped line begins
with a dash. -/
def claimedKeep (line : List Char) : Bool :=
  (pyStripWs line).head? = some '-'

/-- The stored item exactly as claim C10 words it: the line with all
leading and trailing dash and space characters removed (and nothing
more). -/
def claimedBulletItem (line : List Char) : List Char :=
  pyStripSet ['-', ' '] line

/-- Bullet extraction as claim C10 words it. -/
def claimedBullets (captured : List Char) : List String :=
  ((splitNl (pyStripWs captured)).filterMap fun line =>
    if claimedKeep line then some (String.mk (claimedBulletItem line)) else none)

/-- Bullet extraction as amended: the stored item is additionally
stripped of remaining leading and trailing whitespace. -/
def amendedBullets (captured : List Char) : List String :=
  ((splitNl (pyStripWs captured)).filterMap fun line =>
    if claimedKeep line then some (String.mk (pyStripWs (claimedBulletItem line)))
    else none)

/-- The strengths-section bullet list as claim C10 predicts it for a
given raw response (section extraction as in the source, per-line rule
as in the claim). -/
def claimedStrengthsOf (response : String) : List String :=
  match findCIAfter "**strengths**:".data response.data with
  | some s => claimedBullets (captureLazy s)
  | none => []

/-- Does an event persist final evaluation results? -/
def isSaveResults : EvalEv → Bool
  | .saveResults .. => true
  | _ => false

/-- An assistant-message write carries no context and no sources
(trivially true of the other events). -/
def assistantContextEmpty : ChatEv → Prop
  | .saveAssistantMessage _ _ _ contextInfo sources => contextInfo = [] ∧ sources = []
  | _ => True

/-! ## Concrete instances used by witnesses and counterexamples -/

/-- The canonical response format of property P3. -/
def canonicalResponse : String :=
  "**SCORE**: 77\n**STRENGTHS**:\n- a\n- b\n**GAPS**:\n- c\n**RECOMMENDATIONS**:\n- d\n**DETAILED ANALYSIS**:\nsome text"

/-- A strengths section whose first bullet line carries a trailing tab. -/
def tabBulletResponse : String := "**STRENGTHS**:\n- a\t\n- b"

/-- Evaluation environment in which every external call succeeds;
internal analysis scores 80, delta scores 90, external has no score
(the spec's P1 example). -/
def envAllOk : EvalEnv :=
  { newUuid := "uuid-1"
    extractPdf := fun _ => .ok "extracted"
    orgGuidelines := fun _ _ => []
    proposalSummaryLLM := fun _ => .ok "psummary"
    torSummaryLLM := fun _ => .ok "tsummary"
    analysisLLM := fun ty _ _ _ _ _ =>
      if ty = "P_Internal" then .ok "**SCORE**: 80\nbody"
      else if ty = "P_Delta" then .ok "**SCORE**: 90\nbody"
      else .ok "no score in this response"
    parseRaised := none
    processingTime := 1 }

/-- Evaluation environment whose internal analysis call raises. -/
def envInternalFails : EvalEnv :=
  { envAllOk with
    analysisLLM := fun ty _ _ _ _ _ =>
      if ty = "P_Internal" then .error "boom" else .ok "fine" }

/-- Evaluation environment whose proposal-summary call raises. -/
def envSummaryFails : EvalEnv :=
  { envAllOk with proposalSummaryLLM := fun _ => .error "summary-failed" }

/-- A plain evaluation request supplying both documents as text. -/
def reqText : EvaluatorRequest :=
  { user_id := "u1"
    user_name := none
    session_id := some "sess-1"
    organization_id := none
    org_guideline_id := none
    proposal_text_input := some "proposal text"
    proposal_file_data := none
    tor_text_input := some "tor text"
    tor_file_data := none }

/-- The trace of the all-success evaluation run. -/
def opsAllOk : List EvalEv := (evaluate envAllOk reqText).1

/-- The response of the all-success evaluation run: the three parsed
sections (scores 80, null, 90) and overall score 85. -/
def respAllOk : EvaluatorResponse :=
  { session_id := "sess-1"
    user_id := "u1"
    internal_analysis := parse_analysis_response none "**SCORE**: 80\nbody" "P_Internal"
    external_analysis :=
      parse_analysis_response none "no score in this response" "P_External"
    delta_analysis := parse_analysis_response none "**SCORE**: 90\nbody" "P_Delta"
    overall_score := some 85
    summary := none
    recommendation := none
    processing_time_seconds := 1 }

/-- Chat environment whose refinement call raises. -/
def chatEnvRefineErr : ChatEnv :=
  { newSessionUuid := "cs-1"
    newResponseUuid := "cr-1"
    conversations := fun _ _ => ""
    refineLLM := fun _ _ => .error "refine-failed"
    pineconeQuery := fun _ _ => .ok []
    pdfLookup := fun _ => none
    genLLM := fun _ _ _ _ => .ok "answer" }

/-- Chat environment whose refinement call returns prose without the two
labelled lines. -/
def chatEnvRefineUnparsable : ChatEnv :=
  { chatEnvRefineErr with refineLLM := fun _ _ => .ok "hello" }

/-- Pinecone results from documents A, A, B, C, A (scores descending). -/
def resultA1 : PineResult :=
  { metadata_pdf_name := some "A", metadata_source := none
    metadata_text := some "tA1", text := none, score := some 9 }

def resultA2 : PineResult :=
  { metadata_pdf_name := some "A", metadata_source := none
    metadata_text := some "tA2", text := none, score := some 8 }

def resultB : PineResult :=
  { metadata_pdf_name := some "B", metadata_source := none
    metadata_text := some "tB", text := none, score := some 7 }

def resultC : PineResult :=
  { metadata_pdf_name := some "C", metadata_source := none
    metadata_text := some "tC", text := none, score := some 6 }

def resultA3 : PineResult :=
  { metadata_pdf_name := some "A", metadata_source := none
    metadata_text := some "tA3", text := none, score := some 5 }

def resultsAABCA : List PineResult := [resultA1, resultA2, resultB, resultC, resultA3]

/-- Chat environment whose retrieval returns the A, A, B, C, A results
and whose generation disclaims knowing the answer. -/
def chatEnvDisclaims : ChatEnv :=
  { chatEnvRefineErr with
    refineLLM := fun _ _ => .ok "REQUIRES_RETRIEVAL: True\nREFINED_QUERY: refined q"
    pineconeQuery := fun _ _ => .ok resultsAABCA
    genLLM := fun _ _ _ _ => .ok "I cannot find that in the documents." }

/-- A plain chat request. -/
def chatReq : ChatRequest :=
  { user_id := "cu-1"
    user_name := none
    user_email := none
    session_id := some "csess-1"
    question := "what is x?"
    model := "gpt-4o"
    source := none }

/-! ## Theorems -/

/-- The code's bullet keep-condition (dash-prefix of the stripped line)
restated through `List.head?`. -/
lemma dash_isPrefixOf_eq_head (l : List Char) :
    ['-'].isPrefixOf l = decide (l.head? = some '-') := by
  cases l with
  | nil => simp [List.isPrefixOf]
  | cons c cs =>
    by_cases h : c = '-'
    · simp [List.isPrefixOf, h]
    · have h' : ¬('-' = c) := fun hh => h hh.symm
      simp [List.isPrefixOf, h, h']

/-- The source's bullet extraction agrees with the amended per-line
rule (strip dashes and spaces, then strip whitespace). -/
lemma bulletsOf_eq_amended (captured : List Char) :
    bulletsOf captured = amendedBullets captured := by
  unfold bulletsOf amendedBullets
  congr 1
  funext line
  rw [claimedKeep, claimedBulletItem, dash_isPrefixOf_eq_head]

/-- C7: for every input text and section type the parser returns a
record with `section_type` set (it is a total function, so it never
raises), and whenever the body raised internally the result is exactly
the minimal record: generic title, content = the full raw text, empty
lists, null score. -/
theorem c7_parser_robust (raised : Option String) (response sectionType : String) :
    (parse_analysis_response raised response sectionType).section_type = sectionType ∧
    ∀ e, raised = some e →
      parse_analysis_response raised response sectionType =
        minimalRecord response sectionType := by
  cases raised with
  | none =>
    exact ⟨rfl, fun e h => by cases h⟩
  | some err =>
    exact ⟨rfl, fun e _ => rfl⟩

/-- Closed instance of C7 at a concrete raised exception and input. -/
theorem c7_parser_robust_witness :
    (parse_analysis_response (some "boom") "" "P_Internal").section_type = "P_Internal" ∧
    parse_analysis_response (some "boom") "" "P_Internal" = minimalRecord "" "P_Internal" :=
  ⟨(c7_parser_robust (some "boom") "" "P_Internal").1,
   (c7_parser_robust (some "boom") "" "P_Internal").2 "boom" rfl⟩

/-- C8: on the canonical response format the parser extracts score 77,
strengths a and b, gap c, recommendation d, and content "some text". -/
theorem c8_parser_canonical :
    parse_analysis_response none canonicalResponse "P_Internal" =
      { section_type := "P_Internal"
        title := "Internal Consistency Analysis"
        content := "some text"
        score := some 77
        gaps := ["c"]
        strengths := ["a", "b"]
        recommendations := ["d"] } := by
  decide

/-- C10 fails as stated: on a strengths section whose first bullet line
ends in a tab character, the parser stores "a" (the code strips
whitespace after stripping dashes and spaces), while the claim's
description of the stored item yields "a\t". -/
theorem c10_counterexample :
    (parse_analysis_response none tabBulletResponse "P_Internal").strengths = ["a", "b"] ∧
    claimedStrengthsOf tabBulletResponse = ["a\t", "b"] ∧
    (["a", "b"] : List String) ≠ ["a\t", "b"] := by
  refine ⟨by decide, by decide, by decide⟩

/-- C10 as amended: a line is kept exactly when its whitespace-stripped
form begins with a dash, and the stored item is that line with leading
and trailing dash and space characters removed and then stripped of any
remaining leading and trailing whitespace; this is what the parser
produces for each of the three bullet-list fields. -/
theorem c10_amended_bullet_rule (response sectionType : String) :
    (parse_analysis_response none response sectionType).strengths =
      (match findCIAfter "**strengths**:".data response.data with
       | some s => amendedBullets (captureLazy s)
       | none => []) ∧
    (parse_analysis_response none response sectionType).gaps =
      (match findGapsAfter response.data with
       | some s => amendedBullets (captureLazy s)
       | none => []) ∧
    (parse_analysis_response none response sectionType).recommendations =
      (match findCIAfter "**recommendations**:".data response.data with
       | some s => amendedBullets (captureLazy s)
       | none => []) := by
  refine ⟨?_, ?_, ?_⟩
  · show (match findCIAfter "**strengths**:".data response.data with
       | some s => bulletsOf (captureLazy s)
       | none => []) = _
    cases findCIAfter "**strengths**:".data response.data <;>
      simp [bulletsOf_eq_amended]
  · show (match findGapsAfter response.data with
       | some s => bulletsOf (captureLazy s)
       | none => []) = _
    cases findGapsAfter response.data <;> simp [bulletsOf_eq_amended]
  · show (match findCIAfter "**recommendations**:".data response.data with
       | some s => bulletsOf (captureLazy s)
       | none => []) = _
    cases findCIAfter "**recommendations**:".data response.data <;>
      simp [bulletsOf_eq_amended]

/-- If no line of the completion starts with either label, the line
loop of `query_refiner` keeps its initial accumulator. -/
lemma refine_foldl_const (lines : List (List Char)) (init : Bool × String)
    (h : ∀ line ∈ lines, "REQUIRES_RETRIEVAL:".data.isPrefixOf line = false ∧
      "REFINED_QUERY:".data.isPrefixOf line = false) :
    lines.foldl refineLineStep init = init := by
  induction lines generalizing init with
  | nil => rfl
  | cons l ls ih =>
    have hl := h l (List.mem_cons_self l ls)
    have hstep : refineLineStep init l = init := by
      simp [refineLineStep, hl.1, hl.2]
    rw [List.foldl_cons, hstep]
    exact ih init fun x hx => h x (List.mem_cons_of_mem l hx)

/-- C4 fails as stated: on a successful refinement call returning prose
without the two labelled lines, `requires_retrieval` comes back false,
not true (the pre-loop default is `False`; only the exception handler
defaults to `True`). -/
theorem c4_counterexample :
    query_refiner chatEnvRefineUnparsable "" "q" = (false, "q") ∧
    ((false, "q") : Bool × String) ≠ ((true, "q") : Bool × String) := by
  exact ⟨by decide, by decide⟩

/-- C4 as amended: if the refinement call raises, the result is
`(True, original question)`; if the call succeeds but no line of the
response carries either label, the refined query still defaults to the
original question but `requires_retrieval` defaults to `False`. -/
theorem c4_amended_refiner_defaults (env : ChatEnv) (conversation query : String) :
    (∀ e, env.refineLLM conversation query = .error e →
      query_refiner env conversation query = (true, query)) ∧
    (∀ response, env.refineLLM conversation query = .ok response →
      (∀ line ∈ splitNl (pyStripWs response.data),
        "REQUIRES_RETRIEVAL:".data.isPrefixOf line = false ∧
        "REFINED_QUERY:".data.isPrefixOf line = false) →
      query_refiner env conversation query = (false, query)) := by
  constructor
  · intro e he
    simp [query_refiner, he]
  · intro response hok hlines
    simp only [query_refiner, hok]
    exact refine_foldl_const _ _ hlines

/-- Closed instances of both branches of the amended C4. -/
theorem c4_amended_refiner_defaults_witness :
    query_refiner chatEnvRefineErr "" "q" = (true, "q") ∧
    query_refiner chatEnvRefineUnparsable "" "q" = (false, "q") :=
  ⟨(c4_amended_refiner_defaults chatEnvRefineErr "" "q").1 "refine-failed" rfl,
   (c4_amended_refiner_defaults chatEnvRefineUnparsable "" "q").2 "hello" rfl (by decide)⟩

/-- Once the kept count has reached `topK`, the deduplication loop
keeps nothing further. -/
lemma uniqueLoop_of_ge (rs : List PineResult) (seen : List String) (topK n : Nat)
    (h : topK ≤ n) : uniqueLoop topK rs seen n = [] := by
  induction rs generalizing seen n with
  | nil => rfl
  | cons r rs ih =>
    have hc : (!seen.contains (pdfNameOf r) && decide (n < topK)) = false := by
      simp [Nat.not_lt.mpr h]
    simp only [uniqueLoop, hc, Bool.false_eq_true, if_false]
    exact ih seen n h

/-- The deduplication loop computes the first-occurrence filter of the
spec, truncated to the remaining budget. -/
lemma uniqueLoop_eq_dedup (rs : List PineResult) (seen : List String) (topK n : Nat)
    (hn : n ≤ topK) :
    uniqueLoop topK rs seen n =
      ((specDedupFirst seen rs).take (topK - n)).map mkContextInfo := by
  induction rs generalizing seen n with
  | nil => simp [uniqueLoop, specDedupFirst]
  | cons r rs ih =>
    by_cases hc : seen.contains (pdfNameOf r) = true
    · simp only [uniqueLoop, specDedupFirst, hc, Bool.not_true, Bool.false_and,
        Bool.false_eq_true, if_false, if_true]
      exact ih seen n hn
    · have hc' : seen.contains (pdfNameOf r) = false := by
        simpa using hc
      by_cases hlt : n < topK
      · have hsub : topK - n = (topK - (n + 1)) + 1 := by omega
        have hcond : (!seen.contains (pdfNameOf r) && decide (n < topK)) = true := by
          rw [hc']
          simp [hlt]
        simp only [uniqueLoop, specDedupFirst]
        rw [hcond, if_pos rfl, hc', if_neg Bool.false_ne_true, hsub,
          List.take_succ_cons, List.map_cons,
          ih (pdfNameOf r :: seen) (n + 1) (by omega)]
      · have h0 : topK - n = 0 := by omega
        have hcond : (!seen.contains (pdfNameOf r) && decide (n < topK)) = false := by
          simp [hlt]
        simp only [uniqueLoop, hcond, Bool.false_eq_true, if_false, h0, List.take_zero,
          List.map_nil]
        exact uniqueLoop_of_ge rs seen topK n (Nat.not_lt.mp hlt)

/-- C6: on a successful retrieval, the extracted context entries are
exactly the first (highest-ranked) chunk of each distinct source
document, in rank order, truncated to `top_k` entries. -/
theorem c6_context_dedup (env : ChatEnv) (query : String) (topK multiplier : Nat)
    (results : List PineResult)
    (h : env.pineconeQuery query (topK * multiplier) = .ok results) :
    (extract_context env query topK multiplier).context_info =
      ((specDedupFirst [] results).take topK).map mkContextInfo := by
  simp only [extract_context, h]
  simpa using uniqueLoop_eq_dedup results [] topK 0 (Nat.zero_le _)

/-- Closed instance of C6 on the spec's example: chunks from documents
A, A, B, C, A with `top_k = 2` yield exactly the first A chunk and the
B chunk. -/
theorem c6_context_dedup_witness :
    (extract_context chatEnvDisclaims "refined q" 2 2).context_info =
      [{ pdf_name := "A", pdf_context := "tA1", score := 9 },
       { pdf_name := "B", pdf_context := "tB", score := 7 }] :=
  (c6_context_dedup chatEnvDisclaims "refined q" 2 2 resultsAABCA rfl).trans (by decide)

/-- C5: whenever a chat turn ends with `within_knowledge_base = false`,
the context list and the sources list returned to the caller are empty,
and every message persisted during the turn carries empty context and
sources — regardless of what retrieval produced. -/
theorem c5_context_suppression (env : ChatEnv) (req : ChatRequest)
    (h : (chat env req).2.within_knowledge_base = false) :
    (chat env req).2.contextInfo = [] ∧ (chat env req).2.sources = [] ∧
    ∀ ev ∈ (chat env req).1, assistantContextEmpty ev := by
  simp only [chat] at h ⊢
  rw [h]
  simp [assistantContextEmpty]

/-- Closed instance of C5: retrieval returns five chunks, generation
answers with a marker phrase ("cannot find"), and the persisted and
returned context/sources are empty. -/
theorem c5_context_suppression_witness :
    (chat chatEnvDisclaims chatReq).2.contextInfo = [] ∧
    (chat chatEnvDisclaims chatReq).2.sources = [] ∧
    ∀ ev ∈ (chat chatEnvDisclaims chatReq).1, assistantContextEmpty ev :=
  c5_context_suppression chatEnvDisclaims chatReq (by decide)

/-- C9: when neither text nor a file is supplied for the proposal (or
for the ToR), the route fails with the 400 validation error at once:
the event trace is empty, so no session row is created and no LLM or
other external call is made. -/
theorem c9_validation_rejects (env : EvalEnv) (user_id : String)
    (user_name session_id organization_id org_guideline_id : Option String)
    (p_ti : Option String) (p_pf : Option (List Nat))
    (t_ti : Option String) (t_pf : Option (List Nat))
    (h : ((p_ti = none ∨ p_ti = some "") ∧ p_pf = none) ∨
         ((t_ti = none ∨ t_ti = some "") ∧ t_pf = none)) :
    (evaluate_proposal_route env user_id user_name session_id organization_id
        org_guideline_id p_ti p_pf t_ti t_pf).1 = [] ∧
    ∃ d, (evaluate_proposal_route env user_id user_name session_id organization_id
        org_guideline_id p_ti p_pf t_ti t_pf).2 = .error (RouteError.badRequest d) := by
  rcases h with ⟨hti, hpf⟩ | ⟨hti, hpf⟩
  · have h1 : (!truthyStr p_ti && !p_pf.isSome) = true := by
      rcases hti with h' | h' <;> simp [h', truthyStr, hpf]
    simp only [evaluate_proposal_route, h1, if_pos rfl]
    exact ⟨rfl, _, rfl⟩
  · by_cases h1 : (!truthyStr p_ti && !p_pf.isSome) = true
    · simp only [evaluate_proposal_route, h1, if_pos rfl]
      exact ⟨rfl, _, rfl⟩
    · have h1' : (!truthyStr p_ti && !p_pf.isSome) = false := by
        rwa [Bool.not_eq_true] at h1
      have h2 : (!truthyStr t_ti && !t_pf.isSome) = true := by
        rcases hti with h' | h' <;> simp [h', truthyStr, hpf]
      simp only [evaluate_proposal_route, h1', Bool.false_eq_true, if_false, h2,
        if_pos rfl]
      exact ⟨rfl, _, rfl⟩

/-- Closed instance of C9 with no inputs supplied at all. -/
theorem c9_validation_rejects_witness :
    (evaluate_proposal_route envAllOk "u1" none none none none none none none none).1 = [] ∧
    ∃ d, (evaluate_proposal_route envAllOk "u1" none none none none
        none none none none).2 = .error (RouteError.badRequest d) :=
  c9_validation_rejects envAllOk "u1" none none none none none none none none
    (Or.inl ⟨Or.inl rfl, rfl⟩)

/-- The overall-score expression computed in `evaluate` equals the
spec's overall-score rule. -/
lemma overallScore_eq_spec (a b c : Option ℚ) :
    (if !([a, b, c].filterMap id).isEmpty then
        some (([a, b, c].filterMap id).sum / (([a, b, c].filterMap id).length : ℚ))
      else none) = specOverallScore a b c := by
  simp only [specOverallScore]
  by_cases h : ([a, b, c].filterMap id).isEmpty <;> simp [h]

/-- C1: every completed evaluation carries an overall score equal to
the arithmetic mean of the non-null section scores of its three
sections, and null (never zero) when all three are null. -/
theorem c1_overall_score (env : EvalEnv) (req : EvaluatorRequest)
    (ops : List EvalEv) (resp : EvaluatorResponse)
    (h : evaluate env req = (ops, .ok resp)) :
    resp.overall_score = specOverallScore resp.internal_analysis.score
      resp.external_analysis.score resp.delta_analysis.score := by
  unfold evaluate at h
  simp only [] at h
  repeat' split at h
  all_goals
    first
      | (rw [Prod.mk.injEq] at h
         obtain ⟨-, h2⟩ := h
         rw [Except.ok.injEq] at h2
         subst h2
         simp_all [specOverallScore])
      | simp at h

/-- The all-success run returns exactly `respAllOk` (overall score 85
from sections scoring 80, null, 90). -/
lemma evalAllOk_ok : (evaluate envAllOk reqText).2 = .ok respAllOk := by
  have hp : process_proposal envAllOk reqText.proposal_text_input
      reqText.proposal_file_data = .ok ("proposal text", none) := rfl
  have ht : process_tor envAllOk reqText.tor_text_input reqText.tor_file_data =
      .ok ("tor text", none) := rfl
  have hs1 : summarize_proposal envAllOk "proposal text" = "psummary" := rfl
  have hs2 : summarize_tor envAllOk "tor text" = "tsummary" := rfl
  have hg : guidelinesOf envAllOk reqText = "" := rfl
  have hri : run_analysis envAllOk "P_Internal" "psummary" "tsummary" "" "" "" =
      .ok (parse_analysis_response none "**SCORE**: 80\nbody" "P_Internal") := rfl
  have hre : run_analysis envAllOk "P_External" "psummary" "tsummary" "" "" "" =
      .ok (parse_analysis_response none "no score in this response" "P_External") := rfl
  have hrd : run_analysis envAllOk "P_Delta" "psummary" "tsummary" ""
      ((parse_analysis_response none "**SCORE**: 80\nbody" "P_Internal").content.take 500)
      ((parse_analysis_response none "no score in this response" "P_External").content.take 500) =
      .ok (parse_analysis_response none "**SCORE**: 90\nbody" "P_Delta") := rfl
  have hsc1 : (parse_analysis_response none "**SCORE**: 80\nbody" "P_Internal").score =
      some 80 := by decide
  have hsc2 : (parse_analysis_response none "no score in this response" "P_External").score =
      none := by decide
  have hsc3 : (parse_analysis_response none "**SCORE**: 90\nbody" "P_Delta").score =
      some 90 := by decide
  have hfm : ([some (80 : ℚ), none, some (90 : ℚ)].filterMap id) = [80, 90] := by decide
  have hov : (if !([(80 : ℚ), 90].isEmpty) then
      some (([(80 : ℚ), 90].sum) / (([(80 : ℚ), 90].length : ℚ))) else none) =
      some (85 : ℚ) := by
    norm_num [List.sum_cons, List.sum_nil]
  have hcond : (scoreInRange (some (80 : ℚ)) && scoreInRange none &&
      scoreInRange (some (90 : ℚ)) && scoreInRange (some (85 : ℚ))) = true := by decide
  unfold evaluate
  simp only [hp, ht, hs1, hs2, hg, hri, hre, hrd, hsc1, hsc2, hsc3, hfm, hov, hcond,
    eq_self_iff_true, if_true]
  rfl

/-- Closed instance of C1: internal scores 80, external has no score,
delta scores 90, and the produced overall score satisfies the mean
rule (it is 85). -/
theorem c1_overall_score_witness :
    respAllOk.overall_score = specOverallScore respAllOk.internal_analysis.score
      respAllOk.external_analysis.score respAllOk.delta_analysis.score :=
  c1_overall_score envAllOk reqText opsAllOk respAllOk
    (by rw [← evalAllOk_ok]; exact rfl)

/-- C2: if the Internal analysis call raises or times out — or the
Internal branch succeeds and the External one raises or times out — the
whole evaluation fails with that error, and nothing is persisted as a
final result: the trace contains no `saveResults` event, so no session
update marks the evaluation completed and the External result is not
persisted even if it succeeded. -/
theorem c2_fork_join_failure (env : EvalEnv) (req : EvaluatorRequest) (e : String)
    (ptext : String) (purl : Option String) (ttext : String) (turl : Option String)
    (hp : process_proposal env req.proposal_text_input req.proposal_file_data =
      .ok (ptext, purl))
    (ht : process_tor env req.tor_text_input req.tor_file_data = .ok (ttext, turl))
    (hbranch :
      env.analysisLLM "P_Internal" (summarize_proposal env ptext)
          (summarize_tor env ttext) (guidelinesOf env req) "" "" = .error e ∨
      ((∃ rI, env.analysisLLM "P_Internal" (summarize_proposal env ptext)
          (summarize_tor env ttext) (guidelinesOf env req) "" "" = .ok rI) ∧
        env.analysisLLM "P_External" (summarize_proposal env ptext)
          (summarize_tor env ttext) (guidelinesOf env req) "" "" = .error e)) :
    (evaluate env req).2 = .error e ∧
    ((evaluate env req).1.any isSaveResults) = false := by
  have hev : evaluate env req =
      ([EvalEv.createSession (pyOrStr req.session_id env.newUuid)
          (ptext.take 10000) (ttext.take 10000),
        EvalEv.analysisCall "P_Internal" (summarize_proposal env ptext)
          (summarize_tor env ttext) (guidelinesOf env req) "" "",
        EvalEv.analysisCall "P_External" (summarize_proposal env ptext)
          (summarize_tor env ttext) (guidelinesOf env req) "" ""],
       .error e) := by
    unfold evaluate
    rcases hbranch with hi | ⟨⟨rI, hok⟩, hx⟩
    · have hri : run_analysis env "P_Internal" (summarize_proposal env ptext)
          (summarize_tor env ttext) (guidelinesOf env req) "" "" = .error e := by
        simp [run_analysis, hi]
      simp only [hp, ht, hri]
    · have hri : run_analysis env "P_Internal" (summarize_proposal env ptext)
          (summarize_tor env ttext) (guidelinesOf env req) "" "" =
          .ok (parse_analysis_response env.parseRaised rI "P_Internal") := by
        simp [run_analysis, hok]
      have hre : run_analysis env "P_External" (summarize_proposal env ptext)
          (summarize_tor env ttext) (guidelinesOf env req) "" "" = .error e := by
        simp [run_analysis, hx]
      simp only [hp, ht, hri, hre]
  rw [hev]
  exact ⟨rfl, rfl⟩

/-- Closed instance of C2: the Internal branch raises "boom", the
evaluation fails with "boom", and no results are saved. -/
theorem c2_fork_join_failure_witness :
    (evaluate envInternalFails reqText).2 = .error "boom" ∧
    ((evaluate envInternalFails reqText).1.any isSaveResults) = false :=
  c2_fork_join_failure envInternalFails reqText "boom" "proposal text" none
    "tor text" none rfl rfl (Or.inl rfl)

/-- A helper for C3: if each of the three section scores is absent or
within the schema bound [0, 100], so is the overall score computed from
them in `evaluate` (the mean of the present ones). -/
lemma scores_mean_in_range (a b c : Option ℚ)
    (ha : scoreInRange a = true) (hb : scoreInRange b = true)
    (hc : scoreInRange c = true) :
    scoreInRange
      (if !([a, b, c].filterMap id).isEmpty then
          some (([a, b, c].filterMap id).sum / (([a, b, c].filterMap id).length : ℚ))
        else none) = true := by
  have hmem : ∀ x ∈ [a, b, c].filterMap id, 0 ≤ x ∧ x ≤ 100 := by
    intro x hx
    rw [List.mem_filterMap] at hx
    obtain ⟨o, ho, hox⟩ := hx
    have hor : scoreInRange o = true := by
      rcases List.mem_cons.mp ho with rfl | ho2
      · exact ha
      · rcases List.mem_cons.mp ho2 with rfl | ho3
        · exact hb
        · rcases List.mem_cons.mp ho3 with rfl | ho4
          · exact hc
          · exact absurd ho4 (List.not_mem_nil o)
    simp only [id_eq] at hox
    subst hox
    simpa only [scoreInRange, Bool.and_eq_true, decide_eq_true_eq] using hor
  by_cases hemp : ([a, b, c].filterMap id).isEmpty
  · simp [hemp, scoreInRange]
  · have hne : [a, b, c].filterMap id ≠ [] := by
      intro hnil
      rw [hnil] at hemp
      exact hemp rfl
    have hlen : 0 < (([a, b, c].filterMap id).length : ℚ) := by
      exact_mod_cast List.length_pos.mpr hne
    have h0 : 0 ≤ ([a, b, c].filterMap id).sum :=
      List.sum_nonneg fun x hx => (hmem x hx).1
    have h100 : ([a, b, c].filterMap id).sum ≤
        ([a, b, c].filterMap id).length • (100 : ℚ) :=
      List.sum_le_card_nsmul _ _ fun x hx => (hmem x hx).2
    rw [nsmul_eq_mul] at h100
    have hdiv1 : 0 ≤ ([a, b, c].filterMap id).sum / (([a, b, c].filterMap id).length : ℚ) :=
      div_nonneg h0 hlen.le
    have hdiv2 : ([a, b, c].filterMap id).sum / (([a, b, c].filterMap id).length : ℚ) ≤ 100 := by
      rw [div_le_iff₀ hlen]
      linarith
    simp [hemp, scoreInRange, hdiv1, hdiv2]

/-- C3: if the Completion Provider raises during proposal
summarization, the orchestrator proceeds with the first 2000 characters
of the raw proposal text as the summary (the Internal analysis is
invoked with exactly that summary), and — the analyses succeeding and
their parsed scores respecting the schema bound — the evaluation still
completes and returns a result. -/
theorem c3_summary_fallback (env : EvalEnv) (req : EvaluatorRequest)
    (ptext ttext : String) (purl turl : Option String) (e rI rE rD : String)
    (hp : process_proposal env req.proposal_text_input req.proposal_file_data =
      .ok (ptext, purl))
    (ht : process_tor env req.tor_text_input req.tor_file_data = .ok (ttext, turl))
    (hsumErr : env.proposalSummaryLLM ptext = .error e)
    (hI : env.analysisLLM "P_Internal" (ptext.take 2000) (summarize_tor env ttext)
      (guidelinesOf env req) "" "" = .ok rI)
    (hE : env.analysisLLM "P_External" (ptext.take 2000) (summarize_tor env ttext)
      (guidelinesOf env req) "" "" = .ok rE)
    (hD : env.analysisLLM "P_Delta" (ptext.take 2000) (summarize_tor env ttext)
      (guidelinesOf env req)
      ((parse_analysis_response env.parseRaised rI "P_Internal").content.take 500)
      ((parse_analysis_response env.parseRaised rE "P_External").content.take 500) =
      .ok rD)
    (hVI : scoreInRange (parse_analysis_response env.parseRaised rI "P_Internal").score = true)
    (hVE : scoreInRange (parse_analysis_response env.parseRaised rE "P_External").score = true)
    (hVD : scoreInRange (parse_analysis_response env.parseRaised rD "P_Delta").score = true) :
    (∃ resp, (evaluate env req).2 = .ok resp) ∧
    EvalEv.analysisCall "P_Internal" (ptext.take 2000) (summarize_tor env ttext)
      (guidelinesOf env req) "" "" ∈ (evaluate env req).1 := by
  have hsum : summarize_proposal env ptext = ptext.take 2000 := by
    simp [summarize_proposal, hsumErr]
  have hri : run_analysis env "P_Internal" (ptext.take 2000) (summarize_tor env ttext)
      (guidelinesOf env req) "" "" =
      .ok (parse_analysis_response env.parseRaised rI "P_Internal") := by
    simp [run_analysis, hI]
  have hre : run_analysis env "P_External" (ptext.take 2000) (summarize_tor env ttext)
      (guidelinesOf env req) "" "" =
      .ok (parse_analysis_response env.parseRaised rE "P_External") := by
    simp [run_analysis, hE]
  have hrd : run_analysis env "P_Delta" (ptext.take 2000) (summarize_tor env ttext)
      (guidelinesOf env req)
      ((parse_analysis_response env.parseRaised rI "P_Internal").content.take 500)
      ((parse_analysis_response env.parseRaised rE "P_External").content.take 500) =
      .ok (parse_analysis_response env.parseRaised rD "P_Delta") := by
    simp [run_analysis, hD]
  have hM := scores_mean_in_range _ _ _ hVI hVE hVD
  unfold evaluate
  simp only [hp, ht, hsum, hri, hre, hrd, hVI, hVE, hVD, hM, Bool.and_self,
    Bool.and_true, Bool.true_and, eq_self_iff_true, if_true]
  refine ⟨⟨_, rfl⟩, ?_⟩
  exact List.mem_cons_of_mem _ (List.mem_cons_self _ _)

/-- Closed instance of C3: the proposal-summary call raises, the
Internal analysis is called with the 2000-character prefix of the raw
proposal text, and the evaluation completes. -/
theorem c3_summary_fallback_witness :
    (∃ resp, (evaluate envSummaryFails reqText).2 = .ok resp) ∧
    EvalEv.analysisCall "P_Internal" (String.take "proposal text" 2000)
      (summarize_tor envSummaryFails "tor text") (guidelinesOf envSummaryFails reqText)
      "" "" ∈ (evaluate envSummaryFails reqText).1 :=
  c3_summary_fallback envSummaryFails reqText "proposal text" "tor text" none none
    "summary-failed" "**SCORE**: 80\nbody" "no score in this response"
    "**SCORE**: 90\nbody" rfl rfl rfl rfl rfl rfl (by decide) (by decide) (by decide)

end DocAnalyzer
